import Mathlib

/-!
Shallow embedding of `src/apigee-react-generator/src-tauri/src/oauth.rs`.

Rust string slices are modelled as lists of characters; the helper functions
below model the exact `str` operations the source uses (`lines().next()`,
`split_whitespace`, `find`/slicing, `split`, `splitn`, `HashMap` collection,
`u8::from_str_radix`).  The pure functions of the source
(`parse_oauth_callback`, `urlencoding_decode`, `get_success_html`,
`get_error_html`, and the response formatting of the accept loop) are embedded
directly; the concurrent accept loop and the timeout race are embedded as
functions over explicit event sequences / race outcomes.
-/

/-- Rust `&str` values are modelled as lists of Unicode scalar values. -/
abbrev Str := List Char

/-- The Unicode `White_Space` property, as used by Rust `char::is_whitespace`
and hence by `str::split_whitespace`. -/
def rustIsWhitespace (c : Char) : Bool :=
  decide ((0x09 ≤ c.toNat ∧ c.toNat ≤ 0x0D) ∨ c.toNat = 0x20 ∨ c.toNat = 0x85 ∨
    c.toNat = 0xA0 ∨ c.toNat = 0x1680 ∨ (0x2000 ≤ c.toNat ∧ c.toNat ≤ 0x200A) ∨
    c.toNat = 0x2028 ∨ c.toNat = 0x2029 ∨ c.toNat = 0x202F ∨ c.toNat = 0x205F ∨
    c.toNat = 0x3000)

/-- `request.lines().next().unwrap_or("")`: the text up to the first `'\n'`,
with a trailing `'\r'` stripped only when a `'\n'` terminator was actually
found (Rust `str::lines` strips `"\r\n"` or `"\n"`, and keeps a bare trailing
`'\r'` of an unterminated last line). An empty input yields the empty string
(`lines()` yields no element, `unwrap_or` supplies `""`). -/
def firstLine (s : Str) : Str :=
  let l := s.takeWhile (fun c => c != '\n')
  if l.length < s.length then
    (if l.getLast? = some '\x0D' then l.dropLast else l)
  else l

/-- Accumulator worker for `splitWhitespace`. -/
def splitWhitespaceGo : Str → Str → List Str
  | [], acc => if acc.isEmpty then [] else [acc.reverse]
  | c :: rest, acc =>
    if rustIsWhitespace c then
      if acc.isEmpty then splitWhitespaceGo rest []
      else acc.reverse :: splitWhitespaceGo rest []
    else splitWhitespaceGo rest (c :: acc)

/-- Rust `str::split_whitespace().collect()`: maximal runs of
non-whitespace characters; no empty tokens are produced. -/
def splitWhitespace (s : Str) : List Str := splitWhitespaceGo s []

/-- `path.find(ch)` followed by slicing `&path[i + 1 ..]`: the suffix after the
first occurrence of `ch`, or `none` when `ch` does not occur. -/
def afterFirst (ch : Char) : Str → Option Str
  | [] => none
  | c :: rest => if c = ch then some rest else afterFirst ch rest

/-- Rust `str::split(ch).collect()`: always at least one piece, empty pieces
are kept. -/
def splitOn (ch : Char) : Str → List Str
  | [] => [[]]
  | c :: rest =>
    if c = ch then [] :: splitOn ch rest
    else
      match splitOn ch rest with
      | [] => [[c]]
      | piece :: pieces => (c :: piece) :: pieces

/-- `pair.splitn(2, ch)`: the part before the first `ch`, and the remainder
after it when `ch` occurs. -/
def splitFirst (ch : Char) : Str → Str × Option Str
  | [] => ([], none)
  | c :: rest =>
    if c = ch then ([], some rest)
    else
      let p := splitFirst ch rest
      (c :: p.1, p.2)

/-- The query-string parsing of `parse_oauth_callback`:
`query.split('&')`, each pair split by `splitn(2, '=')` with the value
defaulting to the empty string (`parts.next().unwrap_or("")`); the
`filter_map` in the source never filters because `splitn` always yields a
first element. -/
def parseParams (query : Str) : List (Str × Str) :=
  (splitOn '&' query).map (fun pair =>
    let p := splitFirst '=' pair
    (p.1, p.2.getD []))

/-- `HashMap::get` on a map collected from a sequence of pairs: a later insert
of the same key overwrites an earlier one (last occurrence wins). -/
def hashMapGet (params : List (Str × Str)) (key : Str) : Option Str :=
  params.foldl (fun acc p => if p.1 = key then some p.2 else acc) none

/-- A hexadecimal digit as accepted by `from_str_radix(_, 16)`. -/
def isHexDigit (c : Char) : Bool :=
  decide (('0' ≤ c ∧ c ≤ '9') ∨ ('a' ≤ c ∧ c ≤ 'f') ∨ ('A' ≤ c ∧ c ≤ 'F'))

/-- The value of a hexadecimal digit. -/
def hexVal (c : Char) : Nat :=
  if '0' ≤ c ∧ c ≤ '9' then c.toNat - 48
  else if 'a' ≤ c ∧ c ≤ 'f' then c.toNat - 87
  else c.toNat - 55

/-- `u8::from_str_radix(hex, 16)` on a two-character string: an optional
leading `'+'` sign is accepted (a `'-'` is rejected for the unsigned `u8`),
and the remaining characters must be hexadecimal digits; two digits can never
overflow `u8`. -/
def fromStrRadix16 (h1 h2 : Char) : Option Nat :=
  if h1 = '+' then
    if isHexDigit h2 then some (hexVal h2) else none
  else if isHexDigit h1 && isHexDigit h2 then
    some (16 * hexVal h1 + hexVal h2)
  else none

/-- `urlencoding_decode` from the source: `'%'` takes up to two characters
from the iterator and parses them as a hexadecimal byte, pushing `byte as
char` on success and `'%'` followed by the taken characters verbatim on
failure; `'+'` becomes a space; every other character is copied. -/
def urlencoding_decode : Str → Str
  | [] => []
  | c :: rest =>
    if c = '%' then
      match rest with
      | h1 :: h2 :: rest2 =>
        match fromStrRadix16 h1 h2 with
        | some b => Char.ofNat b :: urlencoding_decode rest2
        | none => '%' :: h1 :: h2 :: urlencoding_decode rest2
      | [h1] => ['%', h1]
      | [] => ['%']
    else if c = '+' then ' ' :: urlencoding_decode rest
    else c :: urlencoding_decode rest

/-- `OAuthCallbackResult` from the source. -/
structure OAuthCallbackResult where
  code : Option Str
  error : Option Str
  error_description : Option Str
deriving DecidableEq

/-- `parse_oauth_callback` from the source. -/
def parse_oauth_callback (request : Str) : OAuthCallbackResult :=
  let first_line := firstLine request
  let parts := splitWhitespace first_line
  if parts.length < 2 then
    { code := none, error := some ("Invalid HTTP request").data, error_description := none }
  else
    let path := parts.getD 1 []
    match afterFirst '?' path with
    | some query =>
      let params := parseParams query
      { code := (hashMapGet params ("code").data).map urlencoding_decode,
        error := (hashMapGet params ("error").data).map urlencoding_decode,
        error_description :=
          (hashMapGet params ("error_description").data).map urlencoding_decode }
    | none =>
      { code := none, error := some ("No query parameters in callback").data,
        error_description := none }

example :
    parse_oauth_callback ("GET /cb?code=ABC123 HTTP/1.1\x0D\n\x0D\n").data =
      { code := some ("ABC123").data, error := none, error_description := none } := by
  decide

example :
    parse_oauth_callback ("GET /cb?error=access_denied&error_description=User%20cancelled HTTP/1.1\x0D\n\x0D\n").data =
      { code := none, error := some ("access_denied").data,
        error_description := some ("User cancelled").data } := by
  decide

example :
    parse_oauth_callback ("GET\x0D\n").data =
      { code := none, error := some ("Invalid HTTP request").data, error_description := none } := by
  decide

example :
    parse_oauth_callback ("GET /cb HTTP/1.1\x0D\n").data =
      { code := none, error := some ("No query parameters in callback").data,
        error_description := none } := by
  decide

example : urlencoding_decode ("%2").data = ("%2").data := by decide
example : urlencoding_decode ("%+5").data = [Char.ofNat 5] := by decide
example : urlencoding_decode ("a+b%41").data = ("a bA").data := by decide

/-- The shared CSS of both pages, lines `* {...}` through `p {...}` of the
`<style>` element, parameterized by the icon background color. Braces are
written `\x7b`/`\x7d` and apostrophes `\x27`. -/
def styleCommon (iconColor : String) : String :=
  "        * \x7b margin: 0; padding: 0; box-sizing: border-box; \x7d\n" ++
  "        body \x7b\n" ++
  "            font-family: -apple-system, BlinkMacSystemFont, \x27Segoe UI\x27, Roboto, sans-serif;\n" ++
  "            background: linear-gradient(135deg, #1a1a2e 0%, #16213e 100%);\n" ++
  "            min-height: 100vh;\n" ++
  "            display: flex;\n" ++
  "            align-items: center;\n" ++
  "            justify-content: center;\n" ++
  "            color: #fff;\n" ++
  "        \x7d\n" ++
  "        .container \x7b\n" ++
  "            text-align: center;\n" ++
  "            padding: 48px;\n" ++
  "            background: rgba(255,255,255,0.05);\n" ++
  "            border-radius: 24px;\n" ++
  "            backdrop-filter: blur(10px);\n" ++
  "            border: 1px solid rgba(255,255,255,0.1);\n" ++
  "        \x7d\n" ++
  "        .icon \x7b\n" ++
  "            width: 80px;\n" ++
  "            height: 80px;\n" ++
  "            background: " ++ iconColor ++ ";\n" ++
  "            border-radius: 50%;\n" ++
  "            display: flex;\n" ++
  "            align-items: center;\n" ++
  "            justify-content: center;\n" ++
  "            margin: 0 auto 24px;\n" ++
  "            font-size: 40px;\n" ++
  "        \x7d\n" ++
  "        h1 \x7b font-size: 24px; margin-bottom: 12px; font-weight: 600; \x7d\n" ++
  "        p \x7b color: rgba(255,255,255,0.7); font-size: 14px; \x7d\n"

/-- `get_success_html` from the source: the static success page. -/
def get_success_html : Str :=
  ("<!DOCTYPE html>\n" ++
   "<html>\n" ++
   "<head>\n" ++
   "    <meta charset=\"utf-8\">\n" ++
   "    <title>Authentication Successful</title>\n" ++
   "    <style>\n" ++
   styleCommon "#10b981" ++
   "    </style>\n" ++
   "</head>\n" ++
   "<body>\n" ++
   "    <div class=\"container\">\n" ++
   "        <div class=\"icon\">✓</div>\n" ++
   "        <h1>Authentication Successful</h1>\n" ++
   "        <p>You can close this window and return to Apigee Workbench.</p>\n" ++
   "    </div>\n" ++
   "</body>\n" ++
   "</html>").data

/-- The part of the `get_error_html` format string before the `\x7b\x7d`
placeholder (with the `\x7b\x7b`/`\x7d\x7d` escapes of `format!` unescaped). -/
def errorHtmlPre : Str :=
  ("<!DOCTYPE html>\n" ++
   "<html>\n" ++
   "<head>\n" ++
   "    <meta charset=\"utf-8\">\n" ++
   "    <title>Authentication Failed</title>\n" ++
   "    <style>\n" ++
   styleCommon "#ef4444" ++
   "        .error \x7b color: #fca5a5; margin-top: 16px; font-family: monospace; font-size: 12px; \x7d\n" ++
   "    </style>\n" ++
   "</head>\n" ++
   "<body>\n" ++
   "    <div class=\"container\">\n" ++
   "        <div class=\"icon\">✕</div>\n" ++
   "        <h1>Authentication Failed</h1>\n" ++
   "        <p>Please close this window and try again.</p>\n" ++
   "        <p class=\"error\">").data

/-- The part of the `get_error_html` format string after the placeholder. -/
def errorHtmlSuf : Str :=
  ("</p>\n" ++
   "    </div>\n" ++
   "</body>\n" ++
   "</html>").data

/-- `get_error_html` from the source: `format!` interpolates the caller's
`error` argument at the single placeholder, between `errorHtmlPre` and
`errorHtmlSuf`. -/
def get_error_html (error : Str) : Str :=
  errorHtmlPre ++ error ++ errorHtmlSuf

/-- Rust `String::len`: the number of UTF-8 bytes. -/
def utf8Length : Str → Nat
  | [] => 0
  | c :: rest => c.utf8Size + utf8Length rest

/-- The status/body selection of the accept loop (lines 61–65 of the source):
`200 OK` with the success page when `code` is present, otherwise
`400 Bad Request` with the error page rendered from `error` (or
`"Unknown error"` when `error` is also absent). -/
def responseStatusBody (result : OAuthCallbackResult) : Str × Str :=
  if result.code.isSome then (("200 OK").data, get_success_html)
  else (("400 Bad Request").data, get_error_html (result.error.getD ("Unknown error").data))

/-- The `format!` building the HTTP response (lines 67–72 of the source). -/
def httpResponse (result : OAuthCallbackResult) : Str :=
  let sb := responseStatusBody result
  ("HTTP/1.1 ").data ++ sb.1 ++
    ("\x0D\nContent-Type: text/html; charset=utf-8\x0D\nContent-Length: ").data ++
    (Nat.repr (utf8Length sb.2)).data ++
    ("\x0D\nConnection: close\x0D\n\x0D\n").data ++ sb.2

example : utf8Length (("a✓").data) = 4 := by decide

/-- The three ways the foreground race of `wait_for_oauth_callback` (lines
92–107) can resolve after a successful bind: `tokio::time::timeout(timeout,
rx)` yields `Ok(Ok(result))` when the outcome was delivered before the
deadline, `Ok(Err(_))` when the oneshot sender was dropped without sending,
and `Err(_)` when the deadline elapsed first. -/
inductive OAuthRace
  | delivered (result : OAuthCallbackResult)
  | channelClosed
  | elapsed
deriving DecidableEq

/-- The `match` at lines 94–107 of the source: the value returned by
`wait_for_oauth_callback` for each resolution of the race (every branch also
calls `handle.abort()` before returning). -/
def wait_for_oauth_callback_outcome (timeout_secs : Nat) :
    OAuthRace → Except Str OAuthCallbackResult
  | .delivered result => .ok result
  | .channelClosed => .error ("OAuth callback channel closed unexpectedly").data
  | .elapsed =>
      .error (("OAuth callback timed out after ").data ++ (Nat.repr timeout_secs).data ++
        (" seconds").data)

/-- One iteration's worth of network events seen by the background accept loop
(lines 40–90): either `listener.accept()` fails, or it succeeds and
`socket.read` fails, or it succeeds and the read yields the raw request text
(after `String::from_utf8_lossy`). -/
inductive ConnEvent
  | acceptFailed
  | readFailed
  | request (raw : Str)
deriving DecidableEq

/-- The externally visible actions of the background accept loop, in order:
writing an HTTP response to a connection, and sending a result through the
oneshot channel. -/
inductive ServerAction
  | wrote (response : Str)
  | sent (result : OAuthCallbackResult)
deriving DecidableEq

/-- Whether an action is a delivery through the oneshot channel. -/
def isSent : ServerAction → Bool
  | .sent _ => true
  | _ => false

/-- Whether an event is a successfully accepted and read connection. -/
def isRequestEvent : ConnEvent → Bool
  | .request _ => true
  | _ => false

/-- The background accept loop of `wait_for_oauth_callback` (lines 40–90) as a
trace function over the sequence of network events: an accept error is logged
and the loop continues; a read error is logged and the loop `continue`s; a
successfully read request is parsed, the HTTP response is written back, the
result is sent through the oneshot channel, and the loop `break`s, ignoring
all later events. -/
def accept_loop : List ConnEvent → List ServerAction
  | [] => []
  | .acceptFailed :: rest => accept_loop rest
  | .readFailed :: rest => accept_loop rest
  | .request raw :: _ =>
      let result := parse_oauth_callback raw
      [.wrote (httpResponse result), .sent result]

/-- The query string `parse_oauth_callback` extracts from a request when it
reaches one: the suffix after the first `'?'` of the second
whitespace-separated token of the first line. -/
def queryOf (request : Str) : Option Str :=
  if (splitWhitespace (firstLine request)).length < 2 then none
  else afterFirst '?' ((splitWhitespace (firstLine request)).getD 1 [])

theorem parse_short (request : Str)
    (h : (splitWhitespace (firstLine request)).length < 2) :
    parse_oauth_callback request =
      { code := none, error := some ("Invalid HTTP request").data,
        error_description := none } := by
  unfold parse_oauth_callback
  simp [h]

theorem parse_no_query (request : Str)
    (h2 : ¬ (splitWhitespace (firstLine request)).length < 2)
    (h : afterFirst '?' ((splitWhitespace (firstLine request)).getD 1 []) = none) :
    parse_oauth_callback request =
      { code := none, error := some ("No query parameters in callback").data,
        error_description := none } := by
  unfold parse_oauth_callback
  simp only [List.getD_eq_getElem?_getD] at h
  simp [h2, h]

theorem parse_query_branch (request q : Str) (hq : queryOf request = some q) :
    parse_oauth_callback request =
      { code := (hashMapGet (parseParams q) ("code").data).map urlencoding_decode,
        error := (hashMapGet (parseParams q) ("error").data).map urlencoding_decode,
        error_description :=
          (hashMapGet (parseParams q) ("error_description").data).map urlencoding_decode } := by
  unfold queryOf at hq
  by_cases hlen : (splitWhitespace (firstLine request)).length < 2
  · simp [hlen] at hq
  · simp only [hlen, if_false] at hq
    unfold parse_oauth_callback
    simp only [List.getD_eq_getElem?_getD] at hq
    simp [hlen, hq]

/-- Claim C6: the request parser is total (it is a plain function into
`OAuthCallbackResult`) and signals malformed input through `error`: a first
line with fewer than two whitespace-separated tokens yields
`error = "Invalid HTTP request"` with `code` absent, and a request target
without `'?'` yields `error = "No query parameters in callback"` with `code`
absent. -/
theorem parse_malformed_total (request : Str) :
    ((splitWhitespace (firstLine request)).length < 2 →
      parse_oauth_callback request =
        { code := none, error := some ("Invalid HTTP request").data,
          error_description := none })
    ∧ (2 ≤ (splitWhitespace (firstLine request)).length →
      afterFirst '?' ((splitWhitespace (firstLine request)).getD 1 []) = none →
      parse_oauth_callback request =
        { code := none, error := some ("No query parameters in callback").data,
          error_description := none }) := by
  refine ⟨fun h => parse_short request h, fun h2 h => parse_no_query request ?_ h⟩
  omega

theorem parse_malformed_total_witness :
    parse_oauth_callback ("GET\x0D\n").data =
      { code := none, error := some ("Invalid HTTP request").data,
        error_description := none }
    ∧ parse_oauth_callback ("GET /cb HTTP/1.1\x0D\n").data =
      { code := none, error := some ("No query parameters in callback").data,
        error_description := none } :=
  ⟨(parse_malformed_total (("GET\x0D\n").data)).1 (by decide),
   (parse_malformed_total (("GET /cb HTTP/1.1\x0D\n").data)).2 (by decide) (by decide)⟩

/-- Claim C4: when the parsed query binds `code` to `v` and does not bind
`error`, parsing yields `code = decode v` and `error = None`; symmetrically,
when it binds `error` to `v` and not `code`, parsing yields
`error = decode v` and `code = None`. -/
theorem parse_code_error_params (request q v : Str) (hq : queryOf request = some q) :
    (hashMapGet (parseParams q) ("code").data = some v →
      hashMapGet (parseParams q) ("error").data = none →
      (parse_oauth_callback request).code = some (urlencoding_decode v) ∧
        (parse_oauth_callback request).error = none)
    ∧ (hashMapGet (parseParams q) ("error").data = some v →
      hashMapGet (parseParams q) ("code").data = none →
      (parse_oauth_callback request).error = some (urlencoding_decode v) ∧
        (parse_oauth_callback request).code = none) := by
  rw [parse_query_branch request q hq]
  exact ⟨fun hc he => by simp [hc, he], fun he hc => by simp [hc, he]⟩

theorem parse_code_error_params_witness :
    ((parse_oauth_callback ("GET /cb?code=ABC123 HTTP/1.1\x0D\n").data).code =
        some (urlencoding_decode ("ABC123").data) ∧
      (parse_oauth_callback ("GET /cb?code=ABC123 HTTP/1.1\x0D\n").data).error = none)
    ∧ ((parse_oauth_callback ("GET /cb?error=access_denied HTTP/1.1\x0D\n").data).error =
        some (urlencoding_decode ("access_denied").data) ∧
      (parse_oauth_callback ("GET /cb?error=access_denied HTTP/1.1\x0D\n").data).code = none) :=
  ⟨(parse_code_error_params (("GET /cb?code=ABC123 HTTP/1.1\x0D\n").data)
      (("code=ABC123").data) (("ABC123").data) (by decide)).1 (by decide) (by decide),
   (parse_code_error_params (("GET /cb?error=access_denied HTTP/1.1\x0D\n").data)
      (("error=access_denied").data) (("access_denied").data) (by decide)).2
      (by decide) (by decide)⟩

/-- Claim C1 (counterexample): a redirect whose query carries both `code` and
`error` parses to an outcome with both fields present, and a redirect whose
query carries neither (though a query string was found) parses to an outcome
with both fields absent and no diagnostic. -/
theorem parse_both_or_neither_counterexample :
    (parse_oauth_callback ("GET /cb?code=a&error=b HTTP/1.1\x0D\n").data).code =
        some ("a").data
    ∧ (parse_oauth_callback ("GET /cb?code=a&error=b HTTP/1.1\x0D\n").data).error =
        some ("b").data
    ∧ queryOf ("GET /cb?state=1 HTTP/1.1\x0D\n").data = some ("state=1").data
    ∧ (parse_oauth_callback ("GET /cb?state=1 HTTP/1.1\x0D\n").data).code = none
    ∧ (parse_oauth_callback ("GET /cb?state=1 HTTP/1.1\x0D\n").data).error = none := by
  decide

/-- Claim C1 (amended): when parsing fails before a query string is found the
outcome has `code` absent and `error` populated with a diagnostic; once a
query string is found, `code` and `error` are each present exactly when the
query binds the corresponding parameter, so both can be present, or both
absent, in that case. -/
theorem parse_outcome_invariant (request : Str) :
    (queryOf request = none →
      (parse_oauth_callback request).code = none ∧
        ∃ d, (parse_oauth_callback request).error = some d)
    ∧ (∀ q, queryOf request = some q →
      (parse_oauth_callback request).code =
        (hashMapGet (parseParams q) ("code").data).map urlencoding_decode ∧
      (parse_oauth_callback request).error =
        (hashMapGet (parseParams q) ("error").data).map urlencoding_decode) := by
  constructor
  · intro h
    unfold queryOf at h
    by_cases hlen : (splitWhitespace (firstLine request)).length < 2
    · rw [parse_short request hlen]
      exact ⟨rfl, _, rfl⟩
    · simp only [hlen, if_false] at h
      rw [parse_no_query request hlen h]
      exact ⟨rfl, _, rfl⟩
  · intro q hq
    rw [parse_query_branch request q hq]
    exact ⟨rfl, rfl⟩

theorem parse_outcome_invariant_witness :
    ((parse_oauth_callback ("GET / HTTP/1.1\x0D\n").data).code = none ∧
      ∃ d, (parse_oauth_callback ("GET / HTTP/1.1\x0D\n").data).error = some d)
    ∧ ((parse_oauth_callback ("GET /cb?code=x HTTP/1.1\x0D\n").data).code =
        (hashMapGet (parseParams ("code=x").data) ("code").data).map urlencoding_decode ∧
      (parse_oauth_callback ("GET /cb?code=x HTTP/1.1\x0D\n").data).error =
        (hashMapGet (parseParams ("code=x").data) ("error").data).map urlencoding_decode) :=
  ⟨(parse_outcome_invariant (("GET / HTTP/1.1\x0D\n").data)).1 (by decide),
   (parse_outcome_invariant (("GET /cb?code=x HTTP/1.1\x0D\n").data)).2
      (("code=x").data) (by decide)⟩

/-- Claim C10: a valid escape `%XY` (both characters hexadecimal digits)
decodes to the single character whose code point is the byte value `0xXY`
(`byte as char`), so the multi-byte UTF-8 encoding `%C3%A9` of `é` decodes to
the two Latin-1 characters `Ã©` rather than to `é`. -/
theorem decode_valid_escape :
    (∀ h1 h2 rest, isHexDigit h1 = true → isHexDigit h2 = true →
      urlencoding_decode ('%' :: h1 :: h2 :: rest) =
        Char.ofNat (16 * hexVal h1 + hexVal h2) :: urlencoding_decode rest)
    ∧ urlencoding_decode ("%C3%A9").data = [Char.ofNat 0xC3, Char.ofNat 0xA9]
    ∧ [Char.ofNat 0xC3, Char.ofNat 0xA9] = ("Ã©").data := by
  refine ⟨fun h1 h2 rest hh1 hh2 => ?_, by decide, by decide⟩
  have hne : h1 ≠ '+' := fun he => by subst he; exact absurd hh1 (by decide)
  simp [urlencoding_decode, fromStrRadix16, hne, hh1, hh2]

theorem decode_valid_escape_witness :
    urlencoding_decode ('%' :: '4' :: '1' :: ("BC").data) =
      Char.ofNat (16 * hexVal '4' + hexVal '1') :: urlencoding_decode ("BC").data :=
  decode_valid_escape.1 '4' '1' (("BC").data) (by decide) (by decide)

/-- Claim C5: after a successful bind, the foreground race has exactly the
three terminal results of the source's `match`: a delivered outcome is
returned as `Ok`, a closed oneshot channel yields the `ChannelClosed` error
string, and an elapsed deadline yields the timeout error string carrying the
timeout duration in seconds; the call succeeds exactly when an outcome was
delivered. -/
theorem wait_outcome_trichotomy (timeout_secs : Nat) (race : OAuthRace) :
    (∀ result, race = .delivered result →
      wait_for_oauth_callback_outcome timeout_secs race = .ok result)
    ∧ (race = .channelClosed →
      wait_for_oauth_callback_outcome timeout_secs race =
        .error ("OAuth callback channel closed unexpectedly").data)
    ∧ (race = .elapsed →
      wait_for_oauth_callback_outcome timeout_secs race =
        .error (("OAuth callback timed out after ").data ++
          (Nat.repr timeout_secs).data ++ (" seconds").data))
    ∧ ((∃ result, wait_for_oauth_callback_outcome timeout_secs race = .ok result) ↔
      ∃ result, race = .delivered result) := by
  cases race <;>
    simp [wait_for_oauth_callback_outcome]

theorem wait_outcome_trichotomy_witness :
    wait_for_oauth_callback_outcome 30
        (.delivered { code := some ("x").data, error := none, error_description := none }) =
      .ok { code := some ("x").data, error := none, error_description := none }
    ∧ wait_for_oauth_callback_outcome 30 .channelClosed =
      .error ("OAuth callback channel closed unexpectedly").data
    ∧ wait_for_oauth_callback_outcome 30 .elapsed =
      .error (("OAuth callback timed out after ").data ++ (Nat.repr 30).data ++
        (" seconds").data) :=
  ⟨(wait_outcome_trichotomy 30
      (.delivered { code := some ("x").data, error := none, error_description := none })).1
      _ rfl,
   (wait_outcome_trichotomy 30 .channelClosed).2.1 rfl,
   (wait_outcome_trichotomy 30 .elapsed).2.2.1 rfl⟩

/-- Claim C8: per call, the accept loop delivers at most one outcome through
the oneshot slot; the trace of the first successfully read connection is
exactly one response write followed by the matching delivery, after which the
loop has terminated — later events (including further connections) contribute
nothing. -/
theorem accept_loop_single_delivery (events : List ConnEvent) :
    ((accept_loop events).filter isSent).length ≤ 1
    ∧ (∀ pre raw post, events = pre ++ ConnEvent.request raw :: post →
      (∀ e ∈ pre, isRequestEvent e = false) →
      accept_loop events =
        [.wrote (httpResponse (parse_oauth_callback raw)),
         .sent (parse_oauth_callback raw)]) := by
  constructor
  · induction events with
    | nil => simp [accept_loop]
    | cons e rest ih =>
      cases e with
      | acceptFailed => simpa [accept_loop] using ih
      | readFailed => simpa [accept_loop] using ih
      | request raw => simp [accept_loop, isSent]
  · intro pre raw post hev hpre
    subst hev
    induction pre with
    | nil => simp [accept_loop]
    | cons e rest ih =>
      cases e with
      | acceptFailed =>
        simpa [accept_loop] using ih (fun x hx => hpre x (List.mem_cons_of_mem _ hx))
      | readFailed =>
        simpa [accept_loop] using ih (fun x hx => hpre x (List.mem_cons_of_mem _ hx))
      | request r =>
        exact absurd (hpre _ (List.mem_cons_self _ _)) (by simp [isRequestEvent])

theorem accept_loop_single_delivery_witness :
    accept_loop
        [ConnEvent.acceptFailed, ConnEvent.readFailed,
         ConnEvent.request (("GET /cb?code=Z HTTP/1.1\x0D\n").data),
         ConnEvent.request (("GET /other HTTP/1.1\x0D\n").data)] =
      [.wrote (httpResponse (parse_oauth_callback (("GET /cb?code=Z HTTP/1.1\x0D\n").data))),
       .sent (parse_oauth_callback (("GET /cb?code=Z HTTP/1.1\x0D\n").data))] :=
  (accept_loop_single_delivery _).2 [ConnEvent.acceptFailed, ConnEvent.readFailed]
    (("GET /cb?code=Z HTTP/1.1\x0D\n").data)
    [ConnEvent.request (("GET /other HTTP/1.1\x0D\n").data)] rfl (by decide)

/-- Claim C3: the response written back is `200 OK` with the success HTML body
exactly when the parsed outcome has `code` present, and otherwise `400 Bad
Request` with the error HTML body, which contains the parsed `error` value as
a substring; both responses carry `Content-Type: text/html; charset=utf-8`,
`Content-Length` equal to the body's byte length, and `Connection: close`. -/
theorem httpResponse_spec (result : OAuthCallbackResult) :
    (result.code.isSome = true →
      httpResponse result =
        ("HTTP/1.1 200 OK\x0D\nContent-Type: text/html; charset=utf-8\x0D\nContent-Length: ").data ++
          (Nat.repr (utf8Length get_success_html)).data ++
          ("\x0D\nConnection: close\x0D\n\x0D\n").data ++ get_success_html)
    ∧ (result.code = none →
      httpResponse result =
        ("HTTP/1.1 400 Bad Request\x0D\nContent-Type: text/html; charset=utf-8\x0D\nContent-Length: ").data ++
          (Nat.repr (utf8Length (get_error_html (result.error.getD ("Unknown error").data)))).data ++
          ("\x0D\nConnection: close\x0D\n\x0D\n").data ++
          get_error_html (result.error.getD ("Unknown error").data)
      ∧ ∀ e, result.error = some e →
        ∃ s t, get_error_html (result.error.getD ("Unknown error").data) = s ++ e ++ t) := by
  constructor
  · intro h
    unfold httpResponse responseStatusBody
    simp only [h, if_true]
    rw [show (("HTTP/1.1 ").data ++ ("200 OK").data ++
        ("\x0D\nContent-Type: text/html; charset=utf-8\x0D\nContent-Length: ").data : Str) =
        ("HTTP/1.1 200 OK\x0D\nContent-Type: text/html; charset=utf-8\x0D\nContent-Length: ").data
      from by decide]
  · intro h
    have hs : result.code.isSome = false := by simp [h]
    refine ⟨?_, ?_⟩
    · unfold httpResponse responseStatusBody
      simp only [hs, Bool.false_eq_true, if_false]
      rw [show (("HTTP/1.1 ").data ++ ("400 Bad Request").data ++
          ("\x0D\nContent-Type: text/html; charset=utf-8\x0D\nContent-Length: ").data : Str) =
          ("HTTP/1.1 400 Bad Request\x0D\nContent-Type: text/html; charset=utf-8\x0D\nContent-Length: ").data
        from by decide]
    · intro e he
      rw [he]
      exact ⟨errorHtmlPre, errorHtmlSuf, rfl⟩

theorem httpResponse_spec_witness :
    httpResponse { code := some ("ABC123").data, error := none, error_description := none } =
      ("HTTP/1.1 200 OK\x0D\nContent-Type: text/html; charset=utf-8\x0D\nContent-Length: ").data ++
        (Nat.repr (utf8Length get_success_html)).data ++
        ("\x0D\nConnection: close\x0D\n\x0D\n").data ++ get_success_html
    ∧ (∃ s t,
        get_error_html
            ((Option.some (("access_denied").data)).getD ("Unknown error").data) =
          s ++ ("access_denied").data ++ t) := by
  refine ⟨(httpResponse_spec
      { code := some ("ABC123").data, error := none, error_description := none }).1 rfl, ?_⟩
  exact ((httpResponse_spec
      { code := none, error := some ("access_denied").data,
        error_description := none }).2 rfl).2 (("access_denied").data) rfl

/-- Claim C2 (evaluation at the failing input): `get_error_html` interpolates
the caller-supplied message verbatim between the fixed prefix and suffix of
the page — no escaping of HTML metacharacters happens anywhere — so a message
containing markup appears unchanged inside the rendered page. -/
theorem get_error_html_unescaped :
    (∀ msg, get_error_html msg = errorHtmlPre ++ msg ++ errorHtmlSuf)
    ∧ ∃ s t, get_error_html (("<script>alert(1)</script>").data) =
        s ++ ("<script>alert(1)</script>").data ++ t :=
  ⟨fun _ => rfl, errorHtmlPre, errorHtmlSuf, rfl⟩

/-- A character kept verbatim by the standard percent-encoding (RFC 3986
unreserved characters). -/
def isUnreservedChar (c : Char) : Bool :=
  c.isAlphanum || c == '-' || c == '_' || c == '.' || c == '~'

/-- The upper-case hexadecimal digit of a value below 16. -/
def hexDigitUpper (n : Nat) : Char :=
  if n < 10 then Char.ofNat (48 + n) else Char.ofNat (55 + n)

/-- Modelled from the spec: the percent-encoding referenced by the round-trip
property of §8 (the repository contains no encoder — the authorization server
produces the encoded values). Unreserved characters are kept; every other
character, space and `'%'` and `'+'` included, becomes `'%'` followed by two
upper-case hexadecimal digits. -/
def percentEncodeChar (c : Char) : Str :=
  if isUnreservedChar c then [c]
  else ['%', hexDigitUpper (c.toNat / 16), hexDigitUpper (c.toNat % 16)]

/-- Modelled from the spec: percent-encoding of a whole string. -/
def percentEncode : Str → Str
  | [] => []
  | c :: rest => percentEncodeChar c ++ percentEncode rest

/-- Printable ASCII, the domain of the round-trip property. -/
def isPrintableAscii (c : Char) : Bool :=
  decide (0x20 ≤ c.toNat ∧ c.toNat ≤ 0x7E)

theorem char_ofNat_toNat (c : Char) : Char.ofNat c.toNat = c := by
  have h : Nat.isValidChar c.toNat := c.valid
  apply Char.eq_of_val_eq
  simp only [Char.ofNat, h, dif_pos, Char.ofNatAux]
  apply UInt32.eq_of_toBitVec_eq
  apply BitVec.eq_of_toNat_eq
  simp [Char.toNat, BitVec.toNat_ofNatLt, UInt32.toNat]

set_option maxRecDepth 4096 in
theorem hexDigitUpper_spec : ∀ n : Nat, n < 256 →
    isHexDigit (hexDigitUpper (n / 16)) = true ∧
    isHexDigit (hexDigitUpper (n % 16)) = true ∧
    hexDigitUpper (n / 16) ≠ '+' ∧
    16 * hexVal (hexDigitUpper (n / 16)) + hexVal (hexDigitUpper (n % 16)) = n := by
  decide

theorem decode_percentEncodeChar (c : Char) (hc : isPrintableAscii c = true)
    (rest : Str) :
    urlencoding_decode (percentEncodeChar c ++ rest) = c :: urlencoding_decode rest := by
  unfold percentEncodeChar
  by_cases hu : isUnreservedChar c = true
  · simp only [hu, if_true, List.cons_append, List.nil_append]
    have h1 : c ≠ '%' := fun he => by subst he; revert hu; decide
    have h2 : c ≠ '+' := fun he => by subst he; revert hu; decide
    rw [urlencoding_decode.eq_def]
    simp [h1, h2]
  · simp only [Bool.not_eq_true] at hu
    simp only [hu, Bool.false_eq_true, if_false, List.cons_append, List.nil_append]
    have h256 : c.toNat < 256 := by
      have := of_decide_eq_true hc
      omega
    obtain ⟨hh1, hh2, hplus, hsum⟩ := hexDigitUpper_spec c.toNat h256
    rw [show urlencoding_decode ('%' :: hexDigitUpper (c.toNat / 16) ::
        hexDigitUpper (c.toNat % 16) :: rest) =
        match fromStrRadix16 (hexDigitUpper (c.toNat / 16)) (hexDigitUpper (c.toNat % 16)) with
        | some b => Char.ofNat b :: urlencoding_decode rest
        | none => '%' :: hexDigitUpper (c.toNat / 16) :: hexDigitUpper (c.toNat % 16) ::
            urlencoding_decode rest
      from by simp [urlencoding_decode]]
    rw [show fromStrRadix16 (hexDigitUpper (c.toNat / 16)) (hexDigitUpper (c.toNat % 16)) =
        some (16 * hexVal (hexDigitUpper (c.toNat / 16)) + hexVal (hexDigitUpper (c.toNat % 16)))
      from by simp [fromStrRadix16, hplus, hh1, hh2]]
    rw [hsum]
    show Char.ofNat c.toNat :: urlencoding_decode rest = c :: urlencoding_decode rest
    rw [char_ofNat_toNat]

theorem decode_percentEncode (s : Str) (hs : ∀ c ∈ s, isPrintableAscii c = true) :
    urlencoding_decode (percentEncode s) = s := by
  induction s with
  | nil => rfl
  | cons c rest ih =>
    rw [percentEncode, decode_percentEncodeChar c (hs c (List.mem_cons_self _ _)),
      ih (fun x hx => hs x (List.mem_cons_of_mem _ hx))]

/-- Claim C7 (counterexample): `'+'` is not a hexadecimal digit, yet `"%+5"`
is not preserved verbatim — `u8::from_str_radix` accepts the leading `'+'` as
a sign, so the escape decodes to the character with code point 5. -/
theorem decode_plus_sign_counterexample :
    isHexDigit '+' = false
    ∧ urlencoding_decode ("%+5").data = [Char.ofNat 5]
    ∧ urlencoding_decode ("%+5").data ≠ ("%+5").data := by
  decide

/-- Claim C7 (amended): decoding is total (a plain function); percent-encoding
a printable-ASCII string and decoding it restores the string; `'+'` decodes to
a space; a `'%'` followed by fewer than two characters is preserved verbatim;
a `'%'` followed by two characters is preserved verbatim whenever the
hexadecimal parser rejects them — which it does unless both are hexadecimal
digits, or the first is a `'+'` sign and the second a hexadecimal digit `h`,
in which case the escape decodes to the character with the code point of
`h`. -/
theorem urlencoding_decode_policy :
    (∀ s, (∀ c ∈ s, isPrintableAscii c = true) →
      urlencoding_decode (percentEncode s) = s)
    ∧ (∀ rest, urlencoding_decode ('+' :: rest) = ' ' :: urlencoding_decode rest)
    ∧ (∀ h1, urlencoding_decode ['%', h1] = ['%', h1])
    ∧ urlencoding_decode ['%'] = ['%']
    ∧ (∀ h1 h2 rest, fromStrRadix16 h1 h2 = none →
      urlencoding_decode ('%' :: h1 :: h2 :: rest) =
        '%' :: h1 :: h2 :: urlencoding_decode rest)
    ∧ (∀ h2 rest, isHexDigit h2 = true →
      urlencoding_decode ('%' :: '+' :: h2 :: rest) =
        Char.ofNat (hexVal h2) :: urlencoding_decode rest) := by
  refine ⟨decode_percentEncode,
    fun rest => by rw [urlencoding_decode.eq_def]; simp,
    fun h1 => ?_, by decide, fun h1 h2 rest hnone => ?_, fun h2 rest hh2 => ?_⟩
  · rw [urlencoding_decode.eq_def]
    simp
  · rw [urlencoding_decode.eq_def]
    simp [hnone]
  · rw [urlencoding_decode.eq_def]
    simp [fromStrRadix16, hh2]

theorem urlencoding_decode_policy_witness :
    urlencoding_decode (percentEncode ("a b%2F+~").data) = ("a b%2F+~").data
    ∧ urlencoding_decode ('%' :: 'z' :: 'z' :: ("x").data) =
      '%' :: 'z' :: 'z' :: urlencoding_decode ("x").data
    ∧ urlencoding_decode ('%' :: '+' :: 'f' :: []) =
      Char.ofNat (hexVal 'f') :: urlencoding_decode [] :=
  ⟨urlencoding_decode_policy.1 (("a b%2F+~").data) (by decide),
   urlencoding_decode_policy.2.2.2.2.1 'z' 'z' (("x").data) (by decide),
   urlencoding_decode_policy.2.2.2.2.2 'f' [] (by decide)⟩
